import Mathlib

/-!
Verification of the Vision Transformer implementation
(`src/Vision_Transformer.ipynb`) against its natural-language
specification.

The development has three layers:

* a construction-time model (`mhsaInit`, `transformerEncoderInit`,
  `vitInit`) that records which configurations the `__init__` methods
  accept and which hyper-parameters they bake into each module;
* a shape calculus (`... ForwardShape` functions) modelling how each
  `forward` method transforms tensor shapes, with `Option` capturing the
  runtime shape errors raised by the tensor library;
* a value-level model over `ℝ` (`... ForwardF` functions) in which a
  tensor of rank `k` is a function from `k` natural-number indices to a
  real number, translated operation by operation from the source.

Definitions whose names start with `spec` are written from the
specification's words; the theorems compare them with the definitions
translated from the source.
-/

namespace ViT

/-- The eight construction fields of `VisionTransformer.__init__`. -/
structure Config where
  img_size : ℕ
  in_channels : ℕ
  patch_size : ℕ
  embed_dim : ℕ
  mlp_dim : ℕ
  num_heads : ℕ
  num_layers : ℕ
  num_classes : ℕ
deriving DecidableEq

/-- `MultiHeadSelfAttention.__init__`: asserts `embed_dim % num_heads == 0`
(a zero `num_heads` likewise fails, with a division-by-zero error) and
stores `head_dim = embed_dim // num_heads`. -/
def mhsaInit (embed_dim num_heads : ℕ) : Option ℕ :=
  if num_heads = 0 then none
  else if embed_dim % num_heads = 0 then some (embed_dim / num_heads)
  else none

/-- The hyper-parameters a constructed `TransformerEncoder` holds:
its attention sizes, the MLP width, and the probabilities of its three
dropout modules `self.dropout`, `self.dropout1`, `self.dropout2`. -/
structure EncoderInit where
  embed_dim : ℕ
  num_heads : ℕ
  head_dim : ℕ
  mlp_dim : ℕ
  dropP : ℚ
  drop1P : ℚ
  drop2P : ℚ
deriving DecidableEq

/-- `TransformerEncoder.__init__`: builds the attention module (which can
fail its assert) and three dropout modules, all with the same probability. -/
def transformerEncoderInit (embed_dim num_heads mlp_dim : ℕ) (dropout : ℚ) :
    Option EncoderInit := do
  let hd ← mhsaInit embed_dim num_heads
  some ⟨embed_dim, num_heads, hd, mlp_dim, dropout, dropout, dropout⟩

/-- The default value of the `dropout` parameter of
`TransformerEncoder.__init__` (`dropout=0.1`). -/
def defaultDropout : ℚ := 1 / 10

/-- The configuration-determined state of a constructed `VisionTransformer`. -/
structure VitModel where
  patch_size : ℕ
  n_patches : ℕ
  blocks : List EncoderInit
  num_classes : ℕ
deriving DecidableEq

/-- `n_patches = (img_size // patch_size) * (img_size // patch_size)`
as computed in `VisionTransformer.__init__`. -/
def nPatches (cfg : Config) : ℕ :=
  (cfg.img_size / cfg.patch_size) * (cfg.img_size / cfg.patch_size)

/-- The list comprehension
`[TransformerEncoder(embed_dim, num_heads, mlp_dim) for _ in range(num_layers)]`:
each block is constructed with the dropout argument left at its default. -/
def buildEncoders (cfg : Config) : ℕ → Option (List EncoderInit)
  | 0 => some []
  | n + 1 => do
      let blk ← transformerEncoderInit cfg.embed_dim cfg.num_heads cfg.mlp_dim defaultDropout
      let rest ← buildEncoders cfg n
      some (blk :: rest)

/-- `VisionTransformer.__init__`: computes `n_patches` (floor division,
no divisibility check) and constructs `num_layers` encoder blocks. -/
def vitInit (cfg : Config) : Option VitModel := do
  let blocks ← buildEncoders cfg cfg.num_layers
  some ⟨cfg.patch_size, nPatches cfg, blocks, cfg.num_classes⟩

/-- The number of encoder blocks of a constructed model. -/
def vitNumBlocks (cfg : Config) : Option ℕ :=
  (vitInit cfg).map (fun m => m.blocks.length)

/-! ## Shape calculus

Shapes are lists of dimension sizes; `none` models a runtime shape error
raised by the tensor library. -/

/-- Number of windows produced by `Tensor.unfold(dim, size, step)` along a
dimension of extent `n`; fails when the window does not fit. -/
def unfoldLen (n size step : ℕ) : Option ℕ :=
  if size ≤ n then some ((n - size) / step + 1) else none

/-- `Tensor.view` succeeds exactly when the element counts agree. -/
def viewOK (total total' : ℕ) : Option Unit :=
  if total = total' then some () else none

/-- `nn.Linear(inF, outF)` applied along the last axis of a rank-2 or
rank-3 tensor: requires the last dimension to equal `inF`. -/
def linearLastShape (inF outF : ℕ) : List ℕ → Option (List ℕ)
  | [a, b, d] => if d = inF then some [a, b, outF] else none
  | [a, d] => if d = inF then some [a, outF] else none
  | _ => none

/-- Broadcasting of a single dimension pair (PyTorch semantics). -/
def broadcastDim (a b : ℕ) : Option ℕ :=
  if a = b then some a
  else if a = 1 then some b
  else if b = 1 then some a
  else none

/-- Broadcasting of two rank-3 shapes, as in elementwise `+`. -/
def broadcastShape3 : List ℕ → List ℕ → Option (List ℕ)
  | [a, b, c], [d, e, f] => do
      let x ← broadcastDim a d
      let y ← broadcastDim b e
      let z ← broadcastDim c f
      some [x, y, z]
  | _, _ => none

/-- `nn.LayerNorm(E)` requires the last dimension to equal `E` and
preserves the shape. -/
def layerNormShape (E : ℕ) : List ℕ → Option (List ℕ)
  | [a, b, d] => if d = E then some [a, b, d] else none
  | _ => none

/-- Shape behaviour of `MultiHeadSelfAttention.forward`: the `query`
linear layer, the `view` into heads, the attention matmuls, the `view`
back, and the `out` linear layer. -/
def mhsaForwardShape (E nh : ℕ) : List ℕ → Option (List ℕ)
  | [B, S, D] => do
      let hd := E / nh
      -- Q = self.query(x); K = self.query(x); V = self.query(x)
      let q1 ← linearLastShape E E [B, S, D]
      -- Q.view(batch_size, n_patches, num_heads, head_dim):
      -- total elements B*S*E against B*S*(nh*hd)
      let _ ← viewOK (B * S * E) (B * S * (nh * hd))
      -- scores, softmax, attention @ V keep [B, nh, S, hd];
      -- out.permute(0,2,1,3).contiguous().view(batch_size, n_patches, embed_dim):
      -- total elements B*S*(nh*hd) against B*S*E
      let _ ← viewOK (B * S * (nh * hd)) (B * S * E)
      -- out = self.out(out)
      linearLastShape E E q1
  | _ => none

/-- Shape behaviour of `TransformerEncoder.forward`. -/
def encoderForwardShape (E nh mlp : ℕ) (s : List ℕ) : Option (List ℕ) := do
  let a ← mhsaForwardShape E nh s
  -- x = x + self.dropout1(attn_out)
  let x1 ← broadcastShape3 s a
  -- x = self.norm1(x)
  let x2 ← layerNormShape E x1
  -- ff_out = self.linear2(self.dropout(F.gelu(self.linear1(x))))
  let f1 ← linearLastShape E mlp x2
  let f2 ← linearLastShape mlp E f1
  -- x = x + self.dropout2(ff_out)
  let x3 ← broadcastShape3 x2 f2
  -- x = self.norm2(x)
  layerNormShape E x3

/-- The loop `for layer in self.transformer_encoders: x = layer(x)`. -/
def applyEncoders (E nh mlp : ℕ) : ℕ → List ℕ → Option (List ℕ)
  | 0, s => some s
  | n + 1, s => do
      let s' ← encoderForwardShape E nh mlp s
      applyEncoders E nh mlp n s'

/-- Shape behaviour of `PatchEmbedding.forward`: the two `unfold`s, the
two `view`s with the recomputed `n_patches`, the permute, and the
projection `nn.Linear(in_channels * patch_size * patch_size, embed_dim)`. -/
def patchEmbForwardShape (p C0 E : ℕ) : List ℕ → Option (List ℕ)
  | [B, C, H, W] => do
      let hp ← unfoldLen H p p
      let wp ← unfoldLen W p p
      -- n_patches = (height // self.patch_size) * (width // self.patch_size)
      let npat := (H / p) * (W / p)
      -- x.contiguous().view(batch_size, in_channels, -1, p*p) then permute
      -- then x.contiguous().view(batch_size, n_patches, -1)
      let _ ← viewOK (B * C * hp * wp * p * p) (B * npat * (C * p * p))
      -- x = self.projection(x)
      linearLastShape (C0 * p * p) E [B, npat, C * p * p]
  | _ => none

/-- `torch.cat((cls_tokens, x), dim=1)` with `cls_tokens` of shape
`[B, 1, E]` obtained by expanding the classification token. -/
def catClsShape (E : ℕ) : List ℕ → Option (List ℕ)
  | [B, n, D] => if D = E then some [B, n + 1, D] else none
  | _ => none

/-- Shape behaviour of `Position_Encoding.forward`:
`x + self.position_encoding` with the parameter of shape
`[1, n_patches + 1, embed_dim]`. -/
def posEncForwardShape (ncfg E : ℕ) (s : List ℕ) : Option (List ℕ) :=
  broadcastShape3 s [1, ncfg + 1, E]

/-- The shape entering the encoder stack in `VisionTransformer.forward`:
patch embedding, class-token concatenation, positional encoding. -/
def vitEncoderInputShape (cfg : Config) (s : List ℕ) : Option (List ℕ) := do
  let t1 ← patchEmbForwardShape cfg.patch_size cfg.in_channels cfg.embed_dim s
  let t2 ← catClsShape cfg.embed_dim t1
  posEncForwardShape (nPatches cfg) cfg.embed_dim t2

/-- `x[:, 0]` requires a nonempty sequence dimension. -/
def selectToken0Shape : List ℕ → Option (List ℕ)
  | [B, n, D] => if 1 ≤ n then some [B, D] else none
  | _ => none

/-- Shape behaviour of the full `VisionTransformer.forward`. -/
def vitForwardShape (cfg : Config) (s : List ℕ) : Option (List ℕ) := do
  let u ← vitEncoderInputShape cfg s
  let v ← applyEncoders cfg.embed_dim cfg.num_heads cfg.mlp_dim cfg.num_layers u
  let w ← selectToken0Shape v
  -- out = self.classifier(cls_token_out)
  linearLastShape cfg.embed_dim cfg.num_classes w

/-! ## Value-level model

A rank-`k` tensor is a function from `k` natural-number indices to `ℝ`;
batch and spatial extents appear only where the source reads them
(softmax normalisation, reductions, flattening strides). -/

/-- Rank-3 tensor `[batch, seq, dim]`. -/
abbrev T3 := ℕ → ℕ → ℕ → ℝ

/-- Rank-4 tensor `[batch, channel, height, width]`. -/
abbrev T4 := ℕ → ℕ → ℕ → ℕ → ℝ

/-- Rank-5 tensor (after the first `unfold`). -/
abbrev T5 := ℕ → ℕ → ℕ → ℕ → ℕ → ℝ

/-- Rank-6 tensor (after the second `unfold`). -/
abbrev T6 := ℕ → ℕ → ℕ → ℕ → ℕ → ℕ → ℝ

/-- Weights and bias of an `nn.Linear` layer. -/
structure LinearP where
  weight : ℕ → ℕ → ℝ
  bias : ℕ → ℝ

/-- `nn.Linear` with `inF` input features applied to one vector:
`W · v + b`. -/
noncomputable def linearF (inF : ℕ) (P : LinearP) (v : ℕ → ℝ) : ℕ → ℝ :=
  fun d => (∑ m ∈ Finset.range inF, P.weight d m * v m) + P.bias d

/-- Learned scale and shift of an `nn.LayerNorm` layer. -/
structure LayerNormP where
  gamma : ℕ → ℝ
  beta : ℕ → ℝ

/-- The `eps` default of `nn.LayerNorm` (`1e-5`). -/
noncomputable def lnEps : ℝ := 1 / 100000

/-- `nn.LayerNorm(E)` on one token vector: normalise to zero mean and
unit variance over the embedding dimension, then scale and shift. -/
noncomputable def layerNormF (E : ℕ) (P : LayerNormP) (v : ℕ → ℝ) : ℕ → ℝ :=
  let mu := (∑ i ∈ Finset.range E, v i) / E
  let sigma2 := (∑ i ∈ Finset.range E, (v i - mu) ^ 2) / E
  fun d => P.gamma d * ((v d - mu) / Real.sqrt (sigma2 + lnEps)) + P.beta d

/-- Maximum of the first `S` entries of a row (the row-wise maximum that
`torch.softmax` subtracts before exponentiating). -/
noncomputable def rowMax (S : ℕ) (f : ℕ → ℝ) : ℝ :=
  ((List.range S).map f).foldr max (f 0)

/-- `torch.softmax(·, dim=-1)` on a row of length `S`, in its
numerically-stable form: the row maximum is subtracted before
exponentiating. -/
noncomputable def stableSoftmaxRow (S : ℕ) (f : ℕ → ℝ) : ℕ → ℝ :=
  fun t => Real.exp (f t - rowMax S f) /
    ∑ u ∈ Finset.range S, Real.exp (f u - rowMax S f)

/-- The textbook softmax on a row of length `S`. -/
noncomputable def softmaxRow (S : ℕ) (f : ℕ → ℝ) : ℕ → ℝ :=
  fun t => Real.exp (f t) / ∑ u ∈ Finset.range S, Real.exp (f u)

/-- The attention scores of `MultiHeadSelfAttention.forward`.  In the
source both `Q` and `K` are computed as `self.query(x)`, so the scores
depend on the `query` parameters only:
`scores = Q @ K.transpose(-2, -1) / sqrt(head_dim)`. -/
noncomputable def mhsaScores (E nh : ℕ) (query : LinearP) (x : T3) :
    ℕ → ℕ → ℕ → ℕ → ℝ :=
  let hd := E / nh
  -- Q = self.query(x)
  let Q := fun b s => linearF E query (x b s)
  -- K = self.query(x)   (the source applies `query`, not `key`)
  let K := fun b s => linearF E query (x b s)
  -- view(batch, seq, num_heads, head_dim).permute(0, 2, 1, 3)
  let Qh := fun b h s i => Q b s (h * hd + i)
  let Kh := fun b h s i => K b s (h * hd + i)
  fun b h s t => (∑ i ∈ Finset.range hd, Qh b h s i * Kh b h t i) /
    Real.sqrt (hd : ℝ)

/-- `attention = torch.softmax(scores, dim=-1)` in
`MultiHeadSelfAttention.forward`. -/
noncomputable def mhsaAttentionW (E nh S : ℕ) (query : LinearP) (x : T3) :
    ℕ → ℕ → ℕ → ℕ → ℝ :=
  fun b h s => stableSoftmaxRow S (fun t => mhsaScores E nh query x b h s t)

/-- `MultiHeadSelfAttention.forward` as written in the source.  The
`key` and `value` parameters are fields of the module but the body only
ever applies `self.query` (and the output projection `self.out`). -/
noncomputable def mhsaForward (E nh S : ℕ) (query key value out : LinearP)
    (x : T3) : T3 :=
  let hd := E / nh
  -- V = self.query(x)   (the source applies `query`, not `value`)
  let V := fun b s => linearF E query (x b s)
  let Vh := fun b h s i => V b s (h * hd + i)
  let attention := mhsaAttentionW E nh S query x
  -- out = torch.matmul(attention, V)
  let outHeads := fun b h s i =>
    ∑ t ∈ Finset.range S, attention b h s t * Vh b h t i
  -- out.permute(0, 2, 1, 3).contiguous().view(batch, seq, embed_dim)
  let merged := fun b s d => outHeads b (d / hd) s (d % hd)
  -- out = self.out(out)
  fun b s => linearF E out (merged b s)

/-- Modelled from the spec: `MultiHeadSelfAttention` as section 4.3
describes it, with three independent learned projections — `Q` from the
`query` parameters, `K` from the `key` parameters, `V` from the `value`
parameters.  This is the behaviour claim C1 asserts of the source. -/
noncomputable def specMhsaForward (E nh S : ℕ) (query key value out : LinearP)
    (x : T3) : T3 :=
  let hd := E / nh
  let Q := fun b s => linearF E query (x b s)
  let K := fun b s => linearF E key (x b s)
  let V := fun b s => linearF E value (x b s)
  let Qh := fun b h s i => Q b s (h * hd + i)
  let Kh := fun b h s i => K b s (h * hd + i)
  let Vh := fun b h s i => V b s (h * hd + i)
  let scores := fun b h s t =>
    (∑ i ∈ Finset.range hd, Qh b h s i * Kh b h t i) / Real.sqrt (hd : ℝ)
  let attention := fun b h s => stableSoftmaxRow S (fun t => scores b h s t)
  let outHeads := fun b h s i =>
    ∑ t ∈ Finset.range S, attention b h s t * Vh b h t i
  let merged := fun b s d => outHeads b (d / hd) s (d % hd)
  fun b s => linearF E out (merged b s)

/-- Per-block parameters of a `TransformerEncoder`: the four attention
projections, the MLP linears, the two layer norms, and the three dropout
modules (abstract tensor-to-tensor functions, since dropout is a
stochastic elementwise operation supplied by the library). -/
structure EncoderP where
  attnQuery : LinearP
  attnKey : LinearP
  attnValue : LinearP
  attnOut : LinearP
  linear1 : LinearP
  linear2 : LinearP
  norm1 : LayerNormP
  norm2 : LayerNormP
  drop : T3 → T3
  drop1 : T3 → T3
  drop2 : T3 → T3

/-- `ff_out = self.linear2(self.dropout(F.gelu(self.linear1(x))))` from
`TransformerEncoder.forward`; `gelu` is the library's scalar activation,
kept abstract. -/
noncomputable def feedForwardF (E mlp : ℕ) (gelu : ℝ → ℝ) (P : EncoderP)
    (x : T3) : T3 :=
  let inner : T3 := fun b s d => gelu (linearF E P.linear1 (x b s) d)
  let dropped := P.drop inner
  fun b s => linearF mlp P.linear2 (dropped b s)

/-- `TransformerEncoder.forward` as written in the source. -/
noncomputable def encoderForwardF (E mlp nh S : ℕ) (gelu : ℝ → ℝ)
    (P : EncoderP) (x : T3) : T3 :=
  -- attn_out = self.self_attn(x)
  let attn_out := mhsaForward E nh S P.attnQuery P.attnKey P.attnValue P.attnOut x
  -- x = x + self.dropout1(attn_out)
  let x1 : T3 := fun b s d => x b s d + P.drop1 attn_out b s d
  -- x = self.norm1(x)
  let x2 : T3 := fun b s => layerNormF E P.norm1 (x1 b s)
  -- ff_out = self.linear2(self.dropout(F.gelu(self.linear1(x))))
  let ff_out := feedForwardF E mlp gelu P x2
  -- x = x + self.dropout2(ff_out)
  let x3 : T3 := fun b s d => x2 b s d + P.drop2 ff_out b s d
  -- x = self.norm2(x)
  fun b s => layerNormF E P.norm2 (x3 b s)

/-- One residual sub-layer as the spec words it:
`x = LayerNorm(x + Dropout(SubLayer(x)))`. -/
noncomputable def specResidualSublayer (E : ℕ) (norm : LayerNormP)
    (dropF : T3 → T3) (sub : T3 → T3) (x : T3) : T3 :=
  fun b s => layerNormF E norm (fun d => x b s d + dropF (sub x) b s d)

/-- `FeedForward(x) = Linear2(Dropout(GELU(Linear1(x))))` as the spec
words it. -/
noncomputable def specFeedForwardF (E mlp : ℕ) (gelu : ℝ → ℝ) (P : EncoderP)
    (x : T3) : T3 :=
  fun b s => linearF mlp P.linear2
    (P.drop (fun b' s' d => gelu (linearF E P.linear1 (x b' s') d)) b s)

/-- The encoder block as the spec words it: two post-normalised residual
sub-layers, self-attention first, feed-forward second. -/
noncomputable def specEncoderForwardF (E mlp nh S : ℕ) (gelu : ℝ → ℝ)
    (P : EncoderP) (x : T3) : T3 :=
  let y := specResidualSublayer E P.norm1 P.drop1
    (fun z => mhsaForward E nh S P.attnQuery P.attnKey P.attnValue P.attnOut z) x
  specResidualSublayer E P.norm2 P.drop2 (specFeedForwardF E mlp gelu P) y

/-! ## Patch embedding, value level

`PatchEmbedding.forward` line by line:
`x.unfold(2, p, p)`, `.unfold(3, p, p)`,
`.contiguous().view(B, C, -1, p*p)`, `.permute(0, 2, 1, 3)`,
`.contiguous().view(B, n_patches, -1)`, `self.projection(x)`.
`wp = width // p` is the number of patch columns, read off the input. -/

/-- `x.unfold(2, p, p)`: windows of length `p`, stride `p`, along the
height axis; the window offset becomes the new trailing index. -/
def unfoldH (p : ℕ) (x : T4) : T5 :=
  fun b c i w u => x b c (i * p + u) w

/-- `y.unfold(3, p, p)`: windows along the (former) width axis. -/
def unfoldW (p : ℕ) (y : T5) : T6 :=
  fun b c i j u v => y b c i (j * p + v) u

/-- `.contiguous().view(B, C, -1, p*p)`: row-major flattening of the
patch-grid pair `(i, j)` (grid width `wp`) and of the in-patch pair
`(u, v)`. -/
def viewPatchGrid (wp p : ℕ) (z : T6) : T4 :=
  fun b c t k => z b c (t / wp) (t % wp) (k / p) (k % p)

/-- `.permute(0, 2, 1, 3)`: swap the channel and patch axes. -/
def permute0213 (w : T4) : T4 :=
  fun b t c k => w b c t k

/-- `.contiguous().view(B, n_patches, -1)`: row-major flattening of the
channel/in-patch pair, with `pp = p * p` in-patch positions. -/
def viewMergeChannels (pp : ℕ) (w : T4) : T3 :=
  fun b t m => w b t (m / pp) (m % pp)

/-- `PatchEmbedding.forward` as written in the source. -/
noncomputable def patchEmbForwardF (p C0 E wp : ℕ) (proj : LinearP) (x : T4) : T3 :=
  let flat := viewMergeChannels (p * p)
    (permute0213 (viewPatchGrid wp p (unfoldW p (unfoldH p x))))
  fun b t => linearF (C0 * p * p) proj (flat b t)

/-- Modelled from the spec: entry `m` of the flattened patch `t`, where
patch `t` sits at row `t / wp`, column `t % wp` of the patch grid
(row-major), and `m` enumerates channel, then in-patch row, then
in-patch column. -/
def specPatchFlatten (p wp : ℕ) (x : T4) : ℕ → ℕ → ℕ → ℝ :=
  fun b t m =>
    x b (m / (p * p)) (t / wp * p + m % (p * p) / p) (t % wp * p + m % (p * p) % p)

/-- Modelled from the spec: output vector at patch `t` equals
`W · flatten(patch_t) + b` under the shared learned projection. -/
noncomputable def specPatchEmb (p C0 E wp : ℕ) (proj : LinearP) (x : T4) : T3 :=
  fun b t d =>
    (∑ m ∈ Finset.range (C0 * p * p), proj.weight d m * specPatchFlatten p wp x b t m)
      + proj.bias d

/-! ## VisionTransformer, value level -/

/-- Parameters of a constructed `VisionTransformer`: the patch
projection, the positional-encoding parameter `[1, n+1, E]` (leading
broadcast axis dropped), the class token `[1, 1, E]` (likewise), the
encoder blocks in order, and the classification head. -/
structure VitP where
  proj : LinearP
  posEnc : ℕ → ℕ → ℝ
  clsTok : ℕ → ℝ
  blocks : List EncoderP
  classifier : LinearP

/-- `cls_tokens = self.classification_token.expand(batch_size, -1, -1)`
followed by `torch.cat((cls_tokens, x), dim=1)`: the class token goes to
sequence position `0`, every patch token shifts up by one.  The expanded
token does not depend on the batch index. -/
def prependCls (ct : ℕ → ℝ) (t : T3) : T3 :=
  fun b s d => if s = 0 then ct d else t b (s - 1) d

/-- `Position_Encoding.forward`: `x + self.position_encoding`, the
parameter broadcast over the batch axis. -/
def posEncForwardF (pe : ℕ → ℕ → ℝ) (x : T3) : T3 :=
  fun b s d => x b s d + pe s d

/-- `VisionTransformer.forward` as written in the source.  `hp` and `wp`
are the patch-grid extents of the incoming image, so the sequence length
seen by attention is `hp * wp + 1`. -/
noncomputable def vitForwardF (cfg : Config) (gelu : ℝ → ℝ) (P : VitP)
    (hp wp : ℕ) (x : T4) : ℕ → ℕ → ℝ :=
  let S := hp * wp + 1
  -- x = self.patch_embedding(x)
  let t1 := patchEmbForwardF cfg.patch_size cfg.in_channels cfg.embed_dim wp P.proj x
  -- x = torch.cat((cls_tokens, x), dim=1)
  let t2 := prependCls P.clsTok t1
  -- x = self.position_encoding(x)
  let t3 := posEncForwardF P.posEnc t2
  -- for layer in self.transformer_encoders: x = layer(x)
  let t4 := P.blocks.foldl
    (fun acc blk => encoderForwardF cfg.embed_dim cfg.mlp_dim cfg.num_heads S gelu blk acc) t3
  -- cls_token_out = x[:, 0]
  let clsOut := fun b => t4 b 0
  -- out = self.classifier(cls_token_out)
  fun b => linearF cfg.embed_dim P.classifier (clsOut b)

/-- Modelled from the spec: prepend the broadcast class token at
sequence position `0`. -/
def specPrependCls (ct : ℕ → ℝ) (t : T3) : T3 :=
  fun b s d =>
    match s with
    | 0 => ct d
    | Nat.succ k => t b k d

/-- Modelled from the spec, section 4.5: patch-embed the image (spec
formula), prepend the broadcast class token at position 0, add the
positional encoding, pass through the encoder blocks strictly in order,
extract position 0, and apply the affine classification head. -/
noncomputable def specVitForwardF (cfg : Config) (gelu : ℝ → ℝ) (P : VitP)
    (hp wp : ℕ) (x : T4) : ℕ → ℕ → ℝ :=
  let S := hp * wp + 1
  let tokens := specPatchEmb cfg.patch_size cfg.in_channels cfg.embed_dim wp P.proj x
  let seq := specPrependCls P.clsTok tokens
  let seqPos := fun b s d => seq b s d + P.posEnc s d
  let encoded := P.blocks.foldl
    (fun acc blk => encoderForwardF cfg.embed_dim cfg.mlp_dim cfg.num_heads S gelu blk acc) seqPos
  fun b => linearF cfg.embed_dim P.classifier (encoded b 0)

/-! ## Concrete instances used in the theorems below -/

/-- The configuration of the notebook's training cell. -/
def cfg224 : Config := ⟨224, 3, 16, 768, 3072, 12, 12, 10⟩

/-- The training configuration with `patch_size` changed to 15
(224 is not divisible by 15). -/
def cfg224p15 : Config := ⟨224, 3, 15, 768, 3072, 12, 12, 10⟩

/-- A small configuration: image 4, one channel, patch 2 (so 4 patches),
one single-head single-layer encoder of width 1, two classes. -/
def cfgS : Config := ⟨4, 1, 2, 1, 1, 1, 1, 2⟩

/-- A small divisible configuration: image 2, one channel, patch 2
(one patch), width 1, one head, one layer, one class. -/
def cfg9 : Config := ⟨2, 1, 2, 1, 1, 1, 1, 1⟩

/-- A minimal configuration for construction-time checks. -/
def cfgSmall : Config := ⟨2, 1, 1, 1, 1, 1, 1, 1⟩

/-- The encoder-block record `vitInit cfgSmall` produces. -/
def encSmall : EncoderInit := ⟨1, 1, 1, 1, 1 / 10, 1 / 10, 1 / 10⟩

/-- The model record `vitInit cfgSmall` produces. -/
def mSmall : VitModel := ⟨1, 4, [encSmall], 1⟩

/-- An all-zero linear layer. -/
noncomputable def zeroLinearP : LinearP := ⟨fun _ _ => 0, fun _ => 0⟩

/-- The all-zero rank-3 tensor. -/
noncomputable def zeroT3 : T3 := fun _ _ _ => 0

/-- The all-zero rank-4 tensor. -/
noncomputable def zeroT4 : T4 := fun _ _ _ _ => 0

/-- The all-ones rank-3 tensor. -/
noncomputable def oneT3 : T3 := fun _ _ _ => 1

/-- A zero-parameter model for the orchestration theorems. -/
noncomputable def vitP0 : VitP :=
  ⟨zeroLinearP, fun _ _ => 0, fun _ => 0, [], zeroLinearP⟩

/-- `query` parameters for the attention evaluation: weight 2, bias 0. -/
noncomputable def qC1 : LinearP := ⟨fun _ _ => 2, fun _ => 0⟩

/-- `key` parameters for the attention evaluation: weight 3, bias 0. -/
noncomputable def kC1 : LinearP := ⟨fun _ _ => 3, fun _ => 0⟩

/-- `value` parameters for the attention evaluation: weight 5, bias 0. -/
noncomputable def vC1 : LinearP := ⟨fun _ _ => 5, fun _ => 0⟩

/-- `out` parameters for the attention evaluation: the identity on one
feature (weight 1, bias 0). -/
noncomputable def oC1 : LinearP := ⟨fun _ _ => 1, fun _ => 0⟩

/-! ## Helper lemmas -/

/-- `unfold` with window `p` and stride `p` produces exactly `n / p`
windows (floor division — a partial window at the end is dropped). -/
lemma unfold_count {p n : ℕ} (hp : 0 < p) (hn : p ≤ n) :
    (n - p) / p + 1 = n / p := by
  obtain ⟨k, rfl⟩ : ∃ k, n = k + p := ⟨n - p, (Nat.sub_add_cancel hn).symm⟩
  rw [Nat.add_sub_cancel, Nat.add_div_right _ hp]

lemma unfoldLen_eq {p n : ℕ} (hp : 0 < p) (hn : p ≤ n) :
    unfoldLen n p p = some (n / p) := by
  rw [unfoldLen, if_pos hn, unfold_count hp hn]

/-- On an input whose channel count matches the configured one,
`PatchEmbedding.forward` succeeds, with `(H/p)*(W/p)` patches — the
spatial extents need not be multiples of `p`. -/
lemma patchEmbForwardShape_ok {p : ℕ} (C0 E B H W : ℕ) (hp : 0 < p)
    (hH : p ≤ H) (hW : p ≤ W) :
    patchEmbForwardShape p C0 E [B, C0, H, W] =
      some [B, H / p * (W / p), E] := by
  have hv : B * C0 * (H / p) * (W / p) * p * p =
      B * (H / p * (W / p)) * (C0 * p * p) := by ring
  simp [patchEmbForwardShape, unfoldLen_eq hp hH, unfoldLen_eq hp hW,
    viewOK, hv, linearLastShape]

/-- With a wrong channel count (and a positive patch size) the patch
projection's shape check fails. -/
lemma patchEmbForwardShape_badC {p : ℕ} (C0 E B C H W : ℕ) (hp : 0 < p)
    (hH : p ≤ H) (hW : p ≤ W) (hC : C ≠ C0) :
    patchEmbForwardShape p C0 E [B, C, H, W] = none := by
  have hne : ¬ C * p * p = C0 * p * p := by
    intro h
    exact hC (Nat.eq_of_mul_eq_mul_right hp
      (Nat.eq_of_mul_eq_mul_right hp h))
  have hv : B * C * (H / p) * (W / p) * p * p =
      B * (H / p * (W / p)) * (C * p * p) := by ring
  simp [patchEmbForwardShape, unfoldLen_eq hp hH, unfoldLen_eq hp hW,
    viewOK, hv, linearLastShape, hne]

lemma broadcastDim_self (a : ℕ) : broadcastDim a a = some a := by
  simp [broadcastDim]

lemma broadcastDim_one_right (a : ℕ) : broadcastDim a 1 = some a := by
  by_cases h : a = 1 <;> simp [broadcastDim, h]

/-- A validly constructed attention module maps `[B, S, E]` to itself. -/
lemma mhsaForwardShape_id {E nh : ℕ} (B S : ℕ) (hmul : nh * (E / nh) = E) :
    mhsaForwardShape E nh [B, S, E] = some [B, S, E] := by
  simp [mhsaForwardShape, linearLastShape, viewOK, hmul]

/-- A validly constructed encoder block maps `[B, S, E]` to itself. -/
lemma encoderForwardShape_id {E nh : ℕ} (mlp B S : ℕ)
    (hmul : nh * (E / nh) = E) :
    encoderForwardShape E nh mlp [B, S, E] = some [B, S, E] := by
  simp [encoderForwardShape, mhsaForwardShape_id B S hmul,
    linearLastShape, layerNormShape, broadcastShape3, broadcastDim_self]

/-- Iterating validly constructed encoder blocks preserves `[B, S, E]`. -/
lemma applyEncoders_id {E nh : ℕ} (mlp B S : ℕ) (hdvd : nh * (E / nh) = E) :
    ∀ n, applyEncoders E nh mlp n [B, S, E] = some [B, S, E]
  | 0 => rfl
  | n + 1 => by
    simp [applyEncoders, encoderForwardShape_id mlp B S hdvd,
      applyEncoders_id mlp B S hdvd n]

/-- Whenever the floor-divided patch count of the input matches the
configured `n_patches` (and the channel count is right),
`VisionTransformer.forward` runs through with output `[B, num_classes]`. -/
lemma vitForwardShape_ok (cfg : Config) (B H W : ℕ)
    (hp : 0 < cfg.patch_size) (hH : cfg.patch_size ≤ H)
    (hW : cfg.patch_size ≤ W)
    (hnp : H / cfg.patch_size * (W / cfg.patch_size) = nPatches cfg)
    (hdvd : cfg.num_heads ∣ cfg.embed_dim) :
    vitForwardShape cfg [B, cfg.in_channels, H, W] =
      some [B, cfg.num_classes] := by
  have hmul : cfg.num_heads * (cfg.embed_dim / cfg.num_heads) = cfg.embed_dim :=
    Nat.mul_div_cancel' hdvd
  simp [vitForwardShape, vitEncoderInputShape,
    patchEmbForwardShape_ok cfg.in_channels cfg.embed_dim B H W hp hH hW,
    catClsShape, posEncForwardShape, broadcastShape3, hnp, broadcastDim_self,
    broadcastDim_one_right, applyEncoders_id cfg.mlp_dim B (nPatches cfg + 1) hmul,
    selectToken0Shape, linearLastShape]

/-- When the divisibility assert passes, every block construction
succeeds and the stack is `n` identical records. -/
lemma buildEncoders_eq (cfg : Config) (hh : cfg.num_heads ≠ 0)
    (hmod : cfg.embed_dim % cfg.num_heads = 0) :
    ∀ n, buildEncoders cfg n = some (List.replicate n
      ⟨cfg.embed_dim, cfg.num_heads, cfg.embed_dim / cfg.num_heads,
        cfg.mlp_dim, defaultDropout, defaultDropout, defaultDropout⟩)
  | 0 => rfl
  | n + 1 => by
    simp [buildEncoders, transformerEncoderInit, mhsaInit, hh, hmod,
      buildEncoders_eq cfg hh hmod n, List.replicate_succ]

/-- When the divisibility assert passes, `vitInit` succeeds and stacks
`num_layers` identical encoder blocks. -/
lemma vitInit_eq (cfg : Config) (hh : cfg.num_heads ≠ 0)
    (hmod : cfg.embed_dim % cfg.num_heads = 0) :
    vitInit cfg = some ⟨cfg.patch_size, nPatches cfg,
      List.replicate cfg.num_layers
        ⟨cfg.embed_dim, cfg.num_heads, cfg.embed_dim / cfg.num_heads,
          cfg.mlp_dim, defaultDropout, defaultDropout, defaultDropout⟩,
      cfg.num_classes⟩ := by
  simp [vitInit, buildEncoders_eq cfg hh hmod]

/-- When the divisibility assert fails (with at least one layer to
construct), `vitInit` fails. -/
lemma vitInit_none (cfg : Config) (hl : 0 < cfg.num_layers)
    (hmod : ¬ cfg.embed_dim % cfg.num_heads = 0) :
    vitInit cfg = none := by
  have henc : transformerEncoderInit cfg.embed_dim cfg.num_heads cfg.mlp_dim
      defaultDropout = none := by
    by_cases hh : cfg.num_heads = 0 <;>
      simp [transformerEncoderInit, mhsaInit, hh, hmod]
  obtain ⟨n, hn⟩ : ∃ n, cfg.num_layers = n + 1 :=
    ⟨cfg.num_layers - 1, by omega⟩
  simp [vitInit, hn, buildEncoders, henc]

/-- The stable softmax sums to `1` on any nonempty row. -/
lemma stableSoftmaxRow_sum_one (S : ℕ) (f : ℕ → ℝ) (hS : 0 < S) :
    ∑ t ∈ Finset.range S, stableSoftmaxRow S f t = 1 := by
  have hpos : 0 < ∑ u ∈ Finset.range S, Real.exp (f u - rowMax S f) :=
    Finset.sum_pos (fun i _ => Real.exp_pos _)
      (Finset.nonempty_range_iff.mpr hS.ne')
  unfold stableSoftmaxRow
  rw [← Finset.sum_div, div_self hpos.ne']

/-- Subtracting the row maximum does not change the softmax. -/
lemma stableSoftmaxRow_eq_softmaxRow (S : ℕ) (f : ℕ → ℝ) (t : ℕ) :
    stableSoftmaxRow S f t = softmaxRow S f t := by
  unfold stableSoftmaxRow softmaxRow
  rcases Nat.eq_zero_or_pos S with h | h
  · simp [h]
  · have hpos : 0 < ∑ u ∈ Finset.range S, Real.exp (f u) :=
      Finset.sum_pos (fun i _ => Real.exp_pos _)
        (Finset.nonempty_range_iff.mpr h.ne')
    have hM : Real.exp (rowMax S f) ≠ 0 := Real.exp_ne_zero _
    have hsum : ∑ u ∈ Finset.range S, Real.exp (f u - rowMax S f) =
        (∑ u ∈ Finset.range S, Real.exp (f u)) / Real.exp (rowMax S f) := by
      rw [Finset.sum_div]
      exact Finset.sum_congr rfl fun u _ => Real.exp_sub _ _
    rw [hsum, Real.exp_sub, div_div_div_cancel_right₀ hM]

/-- The source's unfold/view/permute/view pipeline computes exactly the
row-major patch flattening of the spec, projected by `W · v + b`. -/
lemma patchEmbForwardF_eq_spec (p C0 E wp : ℕ) (proj : LinearP) (x : T4) :
    patchEmbForwardF p C0 E wp proj x = specPatchEmb p C0 E wp proj x := by
  funext b t d
  rfl

/-- The class-token concatenation puts the token at position `0` and the
patch tokens behind it. -/
lemma prependCls_eq_spec (ct : ℕ → ℝ) (t : T3) :
    prependCls ct t = specPrependCls ct t := by
  funext b s d
  cases s with
  | zero => rfl
  | succ k => rfl

/-- The encoder block of the source is the two post-normalised residual
sub-layers of the spec. -/
lemma encoderForwardF_eq_spec (E mlp nh S : ℕ) (gelu : ℝ → ℝ)
    (P : EncoderP) (x : T3) :
    encoderForwardF E mlp nh S gelu P x = specEncoderForwardF E mlp nh S gelu P x := by
  funext b s d
  rfl

lemma mhsaInit_some {E nh hd : ℕ} (h : mhsaInit E nh = some hd) :
    hd = E / nh := by
  by_cases h0 : nh = 0
  · simp [mhsaInit, h0] at h
  · by_cases hm : E % nh = 0
    · simpa [mhsaInit, h0, hm] using h.symm
    · simp [mhsaInit, h0, hm] at h

lemma transformerEncoderInit_some {E nh mlp : ℕ} {d : ℚ} {blk : EncoderInit}
    (h : transformerEncoderInit E nh mlp d = some blk) :
    blk = ⟨E, nh, E / nh, mlp, d, d, d⟩ := by
  cases hm : mhsaInit E nh with
  | none => simp [transformerEncoderInit, hm] at h
  | some hd =>
    have hhd := mhsaInit_some hm
    subst hhd
    simpa [transformerEncoderInit, hm] using h.symm

/-- Whatever `buildEncoders` returns is a stack of identical records,
all with the default dropout probability. -/
lemma buildEncoders_some (cfg : Config) :
    ∀ n bl, buildEncoders cfg n = some bl →
      bl = List.replicate n ⟨cfg.embed_dim, cfg.num_heads,
        cfg.embed_dim / cfg.num_heads, cfg.mlp_dim,
        defaultDropout, defaultDropout, defaultDropout⟩
  | 0, bl, h => by
    simp only [buildEncoders, Option.some_inj] at h
    simp [← h]
  | n + 1, bl, h => by
    rcases ht : transformerEncoderInit cfg.embed_dim cfg.num_heads
        cfg.mlp_dim defaultDropout with _ | blk
    · simp [buildEncoders, ht] at h
    · rcases hr : buildEncoders cfg n with _ | rest
      · simp [buildEncoders, ht, hr] at h
      · have h1 := transformerEncoderInit_some ht
        have h2 := buildEncoders_some cfg n rest hr
        simp only [buildEncoders, ht, hr, Option.bind_eq_bind,
          Option.some_bind, Option.some_inj] at h
        rw [← h, h1, h2, List.replicate_succ]

/-- With a wrong channel count the whole forward call fails. -/
lemma vitForwardShape_badC (cfg : Config) (B C H W : ℕ)
    (hp : 0 < cfg.patch_size) (hH : cfg.patch_size ≤ H)
    (hW : cfg.patch_size ≤ W) (hC : C ≠ cfg.in_channels) :
    vitForwardShape cfg [B, C, H, W] = none := by
  simp [vitForwardShape, vitEncoderInputShape,
    patchEmbForwardShape_badC cfg.in_channels cfg.embed_dim B C H W hp hH hW hC]

/-- When the input's floor-divided patch count differs from the
configured one (both nonzero), the positional-encoding broadcast fails. -/
lemma vitForwardShape_mismatch (cfg : Config) (B H W : ℕ)
    (hp : 0 < cfg.patch_size) (hH : cfg.patch_size ≤ H)
    (hW : cfg.patch_size ≤ W)
    (hnp : H / cfg.patch_size * (W / cfg.patch_size) ≠ nPatches cfg)
    (hn0 : 0 < nPatches cfg) :
    vitForwardShape cfg [B, cfg.in_channels, H, W] = none := by
  have h1 : 1 ≤ H / cfg.patch_size := (Nat.one_le_div_iff hp).mpr hH
  have h2 : 1 ≤ W / cfg.patch_size := (Nat.one_le_div_iff hp).mpr hW
  have hge : 1 ≤ H / cfg.patch_size * (W / cfg.patch_size) :=
    le_trans (by omega) (Nat.mul_le_mul h1 h2)
  have hb : broadcastDim (H / cfg.patch_size * (W / cfg.patch_size) + 1)
      (nPatches cfg + 1) = none := by
    rw [broadcastDim, if_neg (by omega), if_neg (by omega), if_neg (by omega)]
  simp [vitForwardShape, vitEncoderInputShape,
    patchEmbForwardShape_ok cfg.in_channels cfg.embed_dim B H W hp hH hW,
    catClsShape, posEncForwardShape, broadcastShape3,
    broadcastDim_one_right, hb]

/-! ## Claim theorems -/

/-- C2: in the source's `MultiHeadSelfAttention.forward`, `Q`, `K` and
`V` are all computed by the `query` projection, so the attention output
is unchanged under any variation of the `key` and `value` projection
parameters, for every input and every parameter setting. -/
theorem c2_attention_ignores_key_value (E nh S : ℕ)
    (query key value key' value' out : LinearP) (x : T3) :
    mhsaForward E nh S query key value out x =
      mhsaForward E nh S query key' value' out x := rfl

/-- C8: the source's `TransformerEncoder.forward` is exactly the two
post-normalised residual sub-layers of the spec — first
`x = LayerNorm(x + Dropout(SelfAttention(x)))`, then
`x = LayerNorm(x + Dropout(FeedForward(x)))` with
`FeedForward = Linear2 ∘ Dropout ∘ GELU ∘ Linear1` expanding to
`mlp_dim` and back; normalisation always follows the residual add. -/
theorem c8_encoder_post_norm_structure (E mlp nh S : ℕ) (gelu : ℝ → ℝ)
    (P : EncoderP) (x : T3) :
    encoderForwardF E mlp nh S gelu P x =
      specEncoderForwardF E mlp nh S gelu P x :=
  encoderForwardF_eq_spec E mlp nh S gelu P x

/-- C4: with the notebook's training configuration, a forward call on a
batch of 32 images of shape `[32, 3, 224, 224]` produces shape
`[32, 10]`, the number of patches is 196, and the sequence entering the
encoder stack has shape `[32, 197, 768]`. -/
theorem c4_end_to_end_shapes :
    vitForwardShape cfg224 [32, 3, 224, 224] = some [32, 10]
  ∧ nPatches cfg224 = 196
  ∧ vitEncoderInputShape cfg224 [32, 3, 224, 224] = some [32, 197, 768] :=
  ⟨rfl, rfl, rfl⟩

/-- C6 counterexample: constructing the model with `image_size = 224`
and `patch_size = 15` succeeds even though 224 is not divisible by 15 —
the constructor never checks spatial divisibility, refuting the claim
that this configuration is rejected. -/
theorem c6_counterexample :
    (vitInit cfg224p15).isSome = true ∧ ¬ (224 % 15 = 0) :=
  ⟨rfl, by decide⟩

/-- C6 amended: with at least one head and one layer, construction
fails exactly when `embed_dim` is not divisible by `num_heads` (the
assert in `MultiHeadSelfAttention.__init__`); divisibility of
`image_size` by `patch_size` is never checked, so `image_size = 224,
patch_size = 15` constructs successfully while `embed_dim = 100,
num_heads = 7` is rejected. -/
theorem c6_construction_checks (cfg : Config) (hh : 0 < cfg.num_heads)
    (hl : 0 < cfg.num_layers) :
    ((vitInit cfg).isSome = true ↔ cfg.embed_dim % cfg.num_heads = 0) := by
  by_cases hmod : cfg.embed_dim % cfg.num_heads = 0
  · rw [vitInit_eq cfg hh.ne' hmod]
    simp [hmod]
  · rw [vitInit_none cfg hl hmod]
    simp [hmod]

/-- C6 witness: the theorem applied to the notebook configuration, whose
construction succeeds because `768 % 12 = 0`; and to the
`embed_dim = 100, num_heads = 7` configuration, which is rejected. -/
theorem c6_construction_checks_witness :
    ((vitInit cfg224).isSome = true ↔ cfg224.embed_dim % cfg224.num_heads = 0)
  ∧ ((vitInit ⟨224, 3, 16, 100, 64, 7, 2, 10⟩).isSome = true ↔
      (100 : ℕ) % 7 = 0) :=
  ⟨c6_construction_checks cfg224 (by decide) (by decide),
   c6_construction_checks ⟨224, 3, 16, 100, 64, 7, 2, 10⟩ (by decide) (by decide)⟩

/-- C10: every constructed model stacks `num_layers` identical encoder
blocks, each holding the default probability `0.1` for all three of its
dropout modules; the probability is the same for every block and is not
derived from any of the eight configuration fields. -/
theorem c10_dropout_default (cfg : Config) (m : VitModel)
    (hm : vitInit cfg = some m) :
    m.blocks = List.replicate cfg.num_layers
      ⟨cfg.embed_dim, cfg.num_heads, cfg.embed_dim / cfg.num_heads,
        cfg.mlp_dim, defaultDropout, defaultDropout, defaultDropout⟩
  ∧ defaultDropout = 1 / 10 := by
  refine ⟨?_, rfl⟩
  rcases hb : buildEncoders cfg cfg.num_layers with _ | bl
  · simp [vitInit, hb] at hm
  · have h1 := buildEncoders_some cfg cfg.num_layers bl hb
    simp only [vitInit, hb, Option.bind_eq_bind, Option.some_bind,
      Option.some_inj] at hm
    rw [← hm, h1]

/-- C10 witness: the theorem applied to a one-layer configuration. -/
theorem c10_dropout_default_witness :
    mSmall.blocks = List.replicate cfgSmall.num_layers
      ⟨cfgSmall.embed_dim, cfgSmall.num_heads,
        cfgSmall.embed_dim / cfgSmall.num_heads, cfgSmall.mlp_dim,
        defaultDropout, defaultDropout, defaultDropout⟩
  ∧ defaultDropout = 1 / 10 :=
  c10_dropout_default cfgSmall mSmall rfl

/-- C5 counterexample: with patch size 2, a `[1, 1, 4, 5]` input whose
width 5 is not a multiple of 2 does not fail at all — the forward call
silently crops the extra column and returns a `[1, 2]` output, refuting
the claim that every shape-incompatible input fails with a
ConfigurationError before any computation. -/
theorem c5_counterexample :
    vitForwardShape cfgS [1, 1, 4, 5] = some [1, 2] ∧ ¬ (5 % 2 = 0) :=
  ⟨rfl, by decide⟩

/-- C5 amended: the forward pass performs no up-front configuration
check.  A wrong channel count fails inside the patch projection (a
tensor shape error after patch extraction, not a ConfigurationError);
spatial extents that are not multiples of `patch_size` are silently
cropped, and the call succeeds whenever the floor-divided patch count
matches the configured one; when those patch counts differ (both
nonzero) the failure surfaces as a shape error in the
positional-encoding broadcast, after the patch embedding has already
run. -/
theorem c5_no_upfront_shape_check (cfg : Config) (B C H W : ℕ)
    (hp : 0 < cfg.patch_size) (hH : cfg.patch_size ≤ H)
    (hW : cfg.patch_size ≤ W) (hdvd : cfg.num_heads ∣ cfg.embed_dim) :
    (C ≠ cfg.in_channels → vitForwardShape cfg [B, C, H, W] = none)
  ∧ (C = cfg.in_channels →
      H / cfg.patch_size * (W / cfg.patch_size) = nPatches cfg →
      vitForwardShape cfg [B, C, H, W] = some [B, cfg.num_classes])
  ∧ (C = cfg.in_channels →
      H / cfg.patch_size * (W / cfg.patch_size) ≠ nPatches cfg →
      0 < nPatches cfg → vitForwardShape cfg [B, C, H, W] = none) := by
  refine ⟨fun hC => vitForwardShape_badC cfg B C H W hp hH hW hC,
    fun hC hnp => ?_, fun hC hnp hn0 => ?_⟩
  · rw [hC]
    exact vitForwardShape_ok cfg B H W hp hH hW hnp hdvd
  · rw [hC]
    exact vitForwardShape_mismatch cfg B H W hp hH hW hnp hn0

/-- C5 witness: the amended theorem applied to the small configuration
on a matching `[3, 1, 4, 4]` input, which runs through to `[3, 2]`. -/
theorem c5_no_upfront_shape_check_witness :
    vitForwardShape cfgS [3, 1, 4, 4] = some [3, cfgS.num_classes] :=
  (c5_no_upfront_shape_check cfgS 3 1 4 4 (by decide) (by decide)
    (by decide) (by decide)).2.1 rfl (by decide)

/-- C7: the attention weights of `MultiHeadSelfAttention.forward` are
the numerically-stable softmax (row maximum subtracted before
exponentiating) of the scaled score rows, each nonempty row sums to 1
within the `1e-5` tolerance (here: exactly, hence within tolerance), and
the stabilised form coincides with the textbook softmax of the scores. -/
theorem c7_softmax_attention_rows (E nh S : ℕ) (query : LinearP) (x : T3)
    (b h s t : ℕ) (hS : 0 < S) :
    |(∑ u ∈ Finset.range S, mhsaAttentionW E nh S query x b h s u) - 1|
      ≤ 1 / 100000
  ∧ mhsaAttentionW E nh S query x b h s t =
      softmaxRow S (fun u => mhsaScores E nh query x b h s u) t := by
  have h1 : ∑ u ∈ Finset.range S, mhsaAttentionW E nh S query x b h s u = 1 :=
    stableSoftmaxRow_sum_one S (fun u => mhsaScores E nh query x b h s u) hS
  refine ⟨by rw [h1]; norm_num, ?_⟩
  exact stableSoftmaxRow_eq_softmaxRow S
    (fun u => mhsaScores E nh query x b h s u) t

/-- C7 witness: the theorem applied to a one-token row with zero
parameters and zero input. -/
theorem c7_softmax_attention_rows_witness :
    |(∑ u ∈ Finset.range 1, mhsaAttentionW 1 1 1 zeroLinearP zeroT3 0 0 0 u) - 1|
      ≤ 1 / 100000
  ∧ mhsaAttentionW 1 1 1 zeroLinearP zeroT3 0 0 0 0 =
      softmaxRow 1 (fun u => mhsaScores 1 1 zeroLinearP zeroT3 0 0 0 u) 0 :=
  c7_softmax_attention_rows 1 1 1 zeroLinearP zeroT3 0 0 0 0 (by decide)

/-- C3: `VisionTransformer.forward` is exactly the spec's pipeline —
patch embedding, batch-broadcast class token prepended at position 0,
positional encoding added, the encoder blocks applied strictly in order,
position 0 extracted, and one affine classification head; and a
constructed model has exactly `num_layers` blocks. -/
theorem c3_vit_forward_pipeline (cfg : Config) (gelu : ℝ → ℝ) (P : VitP)
    (hp wp : ℕ) (x : T4) (hh : 0 < cfg.num_heads)
    (hmod : cfg.embed_dim % cfg.num_heads = 0) :
    vitForwardF cfg gelu P hp wp x = specVitForwardF cfg gelu P hp wp x
  ∧ vitNumBlocks cfg = some cfg.num_layers := by
  constructor
  · simp only [vitForwardF, specVitForwardF, posEncForwardF,
      patchEmbForwardF_eq_spec, prependCls_eq_spec]
    rfl
  · rw [vitNumBlocks, vitInit_eq cfg hh.ne' hmod]
    simp

/-- C3 witness: the theorem applied to the small one-layer
configuration with zero parameters and the identity activation. -/
theorem c3_vit_forward_pipeline_witness :
    vitForwardF cfg9 (fun r => r) vitP0 1 1 zeroT4 =
      specVitForwardF cfg9 (fun r => r) vitP0 1 1 zeroT4
  ∧ vitNumBlocks cfg9 = some cfg9.num_layers :=
  c3_vit_forward_pipeline cfg9 (fun r => r) vitP0 1 1 zeroT4
    (by decide) (by decide)

/-- C9: for divisible spatial extents, `PatchEmbedding.forward` outputs
`[B, (H/p)*(W/p), embed_dim]`; its value at patch `i` is
`W · flatten(patch_i) + b` with patches enumerated row-major and each
patch flattened to its `in_channels·p·p` values; the encoder block
preserves `[B, S, embed_dim]` exactly; and the full forward outputs
`[B, num_classes]`. -/
theorem c9_shapes_and_patch_semantics (cfg : Config) (B S H W : ℕ)
    (proj : LinearP) (x : T4)
    (hp : 0 < cfg.patch_size) (hH : cfg.patch_size ∣ H)
    (hW : cfg.patch_size ∣ W) (hH0 : 0 < H) (hW0 : 0 < W)
    (himg : 0 < cfg.img_size) (himgd : cfg.patch_size ∣ cfg.img_size)
    (hdvd : cfg.num_heads ∣ cfg.embed_dim) :
    patchEmbForwardShape cfg.patch_size cfg.in_channels cfg.embed_dim
        [B, cfg.in_channels, H, W] =
      some [B, H / cfg.patch_size * (W / cfg.patch_size), cfg.embed_dim]
  ∧ patchEmbForwardF cfg.patch_size cfg.in_channels cfg.embed_dim
        (W / cfg.patch_size) proj x =
      specPatchEmb cfg.patch_size cfg.in_channels cfg.embed_dim
        (W / cfg.patch_size) proj x
  ∧ encoderForwardShape cfg.embed_dim cfg.num_heads cfg.mlp_dim
        [B, S, cfg.embed_dim] = some [B, S, cfg.embed_dim]
  ∧ vitForwardShape cfg [B, cfg.in_channels, cfg.img_size, cfg.img_size] =
      some [B, cfg.num_classes] := by
  have hHle : cfg.patch_size ≤ H := Nat.le_of_dvd hH0 hH
  have hWle : cfg.patch_size ≤ W := Nat.le_of_dvd hW0 hW
  have himgle : cfg.patch_size ≤ cfg.img_size := Nat.le_of_dvd himg himgd
  exact ⟨patchEmbForwardShape_ok cfg.in_channels cfg.embed_dim B H W hp hHle hWle,
    patchEmbForwardF_eq_spec cfg.patch_size cfg.in_channels cfg.embed_dim
      (W / cfg.patch_size) proj x,
    encoderForwardShape_id cfg.mlp_dim B S (Nat.mul_div_cancel' hdvd),
    vitForwardShape_ok cfg B cfg.img_size cfg.img_size hp himgle himgle rfl hdvd⟩

/-- C9 witness: the theorem applied to the small configuration on a
`[1, 1, 2, 2]` input with zero projection parameters. -/
theorem c9_shapes_and_patch_semantics_witness :
    patchEmbForwardShape cfg9.patch_size cfg9.in_channels cfg9.embed_dim
        [1, cfg9.in_channels, 2, 2] =
      some [1, 2 / cfg9.patch_size * (2 / cfg9.patch_size), cfg9.embed_dim]
  ∧ patchEmbForwardF cfg9.patch_size cfg9.in_channels cfg9.embed_dim
        (2 / cfg9.patch_size) zeroLinearP zeroT4 =
      specPatchEmb cfg9.patch_size cfg9.in_channels cfg9.embed_dim
        (2 / cfg9.patch_size) zeroLinearP zeroT4
  ∧ encoderForwardShape cfg9.embed_dim cfg9.num_heads cfg9.mlp_dim
        [1, 1, cfg9.embed_dim] = some [1, 1, cfg9.embed_dim]
  ∧ vitForwardShape cfg9 [1, cfg9.in_channels, cfg9.img_size, cfg9.img_size] =
      some [1, cfg9.num_classes] :=
  c9_shapes_and_patch_semantics cfg9 1 1 2 2 zeroLinearP zeroT4
    (by decide) (by decide) (by decide) (by decide) (by decide)
    (by decide) (by decide) (by decide)

/-- C1 evaluation: the claim says the Key projection uses the `key`
parameters and the Value projection the `value` parameters.  On a
one-feature, one-token input with query weight 2, key weight 3, value
weight 5 and identity output projection, the source returns 2 — the
`query` value — whereas the spec's three-projection attention returns
5; the ignored projections would have produced 3 and 5. -/
theorem c1_attention_ignores_key_value_params :
    mhsaForward 1 1 1 qC1 kC1 vC1 oC1 oneT3 0 0 0 = 2
  ∧ specMhsaForward 1 1 1 qC1 kC1 vC1 oC1 oneT3 0 0 0 = 5
  ∧ linearF 1 kC1 (oneT3 0 0) 0 = 3
  ∧ linearF 1 vC1 (oneT3 0 0) 0 = 5 := by
  refine ⟨?_, ?_, ?_, ?_⟩ <;>
    norm_num [mhsaForward, specMhsaForward, mhsaAttentionW, mhsaScores,
      stableSoftmaxRow, rowMax, linearF, Finset.sum_range_one,
      List.range_succ, List.range_zero, max_self, sub_self, Real.exp_zero,
      qC1, kC1, vC1, oC1, oneT3]

end ViT
